import Mathlib

/-!
# Verification of the LTE network simulator orchestration core

Shallow embedding of the orchestration core of the LTE-Network-Simulator
repository (`src/tui/network_manager.py` and `src/tui/sdr_controller.py`)
and proofs about it.  Machine integers are modelled as `Nat` with explicit
reduction modulo `2^32` where the source relies on 32-bit arithmetic
(the MD5 hash); Python exceptions are modelled with `Except`/`Option`;
the effect of the orchestration methods on `self` is modelled by explicit
state passing, and their externally visible actions (signals sent to
subprocesses, waits) by explicit event traces.
-/

/-! ## MD5 (RFC 1321)

`_generate_cell_id` and `_generate_lac` in `network_manager.py` call
`hashlib.md5` on short ASCII strings and read a prefix of the hex digest.
We embed MD5 over byte lists, with 32-bit words as `Nat` values reduced
modulo `4294967296 = 2^32`.
-/

/-- 32-bit bitwise complement (inputs are kept below `2^32`). -/
def bnot32 (x : Nat) : Nat := x ^^^ 0xFFFFFFFF

/-- 32-bit left rotation by `n` (for `0 < n < 32`, inputs below `2^32`). -/
def rotl32 (x n : Nat) : Nat := ((x <<< n) ||| (x >>> (32 - n))) % 4294967296

/-- The 64 MD5 sine-derived round constants `K[i]`. -/
def md5K : List Nat :=
  [0xd76aa478, 0xe8c7b756, 0x242070db, 0xc1bdceee,
   0xf57c0faf, 0x4787c62a, 0xa8304613, 0xfd469501,
   0x698098d8, 0x8b44f7af, 0xffff5bb1, 0x895cd7be,
   0x6b901122, 0xfd987193, 0xa679438e, 0x49b40821,
   0xf61e2562, 0xc040b340, 0x265e5a51, 0xe9b6c7aa,
   0xd62f105d, 0x02441453, 0xd8a1e681, 0xe7d3fbc8,
   0x21e1cde6, 0xc33707d6, 0xf4d50d87, 0x455a14ed,
   0xa9e3e905, 0xfcefa3f8, 0x676f02d9, 0x8d2a4c8a,
   0xfffa3942, 0x8771f681, 0x6d9d6122, 0xfde5380c,
   0xa4beea44, 0x4bdecfa9, 0xf6bb4b60, 0xbebfbc70,
   0x289b7ec6, 0xeaa127fa, 0xd4ef3085, 0x04881d05,
   0xd9d4d039, 0xe6db99e5, 0x1fa27cf8, 0xc4ac5665,
   0xf4292244, 0x432aff97, 0xab9423a7, 0xfc93a039,
   0x655b59c3, 0x8f0ccc92, 0xffeff47d, 0x85845dd1,
   0x6fa87e4f, 0xfe2ce6e0, 0xa3014314, 0x4e0811a1,
   0xf7537e82, 0xbd3af235, 0x2ad7d2bb, 0xeb86d391]

/-- Per-round left-rotation amounts `s[i]`. -/
def md5shift (i : Nat) : Nat :=
  (([[7, 12, 17, 22], [5, 9, 14, 20],
     [4, 11, 16, 23], [6, 10, 15, 21]].getD (i / 16) []).getD (i % 4) 0)

/-- Round function: `F`, `G`, `H`, `I` depending on the round of `i`. -/
def md5F (i b c d : Nat) : Nat :=
  if i < 16 then (b &&& c) ||| (bnot32 b &&& d)
  else if i < 32 then (d &&& b) ||| (bnot32 d &&& c)
  else if i < 48 then b ^^^ c ^^^ d
  else c ^^^ (b ||| bnot32 d)

/-- Message-word index `g` for round `i`. -/
def md5g (i : Nat) : Nat :=
  if i < 16 then i
  else if i < 32 then (5 * i + 1) % 16
  else if i < 48 then (3 * i + 5) % 16
  else (7 * i) % 16

/-- MD5 state: four 32-bit words. -/
structure MD5St where
  a : Nat
  b : Nat
  c : Nat
  d : Nat
deriving Repr, DecidableEq

/-- Little-endian 32-bit word `j` of a 64-byte chunk. -/
def md5word (chunk : List Nat) (j : Nat) : Nat :=
  chunk.getD (4 * j) 0 + chunk.getD (4 * j + 1) 0 * 256 +
    chunk.getD (4 * j + 2) 0 * 65536 + chunk.getD (4 * j + 3) 0 * 16777216

/-- One MD5 round. -/
def md5step (chunk : List Nat) (st : MD5St) (i : Nat) : MD5St :=
  let f := (md5F i st.b st.c st.d + st.a + md5K.getD i 0 +
            md5word chunk (md5g i)) % 4294967296
  ⟨st.d, (st.b + rotl32 f (md5shift i)) % 4294967296, st.b, st.c⟩

/-- Process one 64-byte chunk. -/
def md5chunk (st0 : MD5St) (chunk : List Nat) : MD5St :=
  let st := (List.range 64).foldl (md5step chunk) st0
  ⟨(st0.a + st.a) % 4294967296, (st0.b + st.b) % 4294967296,
   (st0.c + st.c) % 4294967296, (st0.d + st.d) % 4294967296⟩

/-- A natural number as 8 little-endian bytes (the MD5 length field). -/
def leBytes8 (n : Nat) : List Nat :=
  [n % 256, n / 256 % 256, n / 65536 % 256, n / 16777216 % 256,
   n / 4294967296 % 256, n / 1099511627776 % 256,
   n / 281474976710656 % 256, n / 72057594037927936 % 256]

/-- MD5 padding: `0x80`, zeros to 56 mod 64, then the bit length. -/
def md5pad (msg : List Nat) : List Nat :=
  msg ++ [0x80] ++ List.replicate ((119 - msg.length % 64) % 64) 0 ++
    leBytes8 (8 * msg.length)

/-- Split a byte list into 64-byte chunks (structural recursion on a fuel
bound, so that the definition reduces in the kernel; the fuel
`l.length` always suffices). -/
def chunks64Go : Nat → List Nat → List (List Nat)
  | 0, _ => []
  | _, [] => []
  | fuel + 1, l => l.take 64 :: chunks64Go fuel (l.drop 64)

/-- Split a byte list into 64-byte chunks. -/
def chunks64 (l : List Nat) : List (List Nat) := chunks64Go l.length l

/-- MD5 of a byte list. -/
def md5bytes (msg : List Nat) : MD5St :=
  (chunks64 (md5pad msg)).foldl md5chunk
    ⟨0x67452301, 0xefcdab89, 0x98badcfe, 0x10325476⟩

/-- Bytes of an ASCII string (agrees with Python `str.encode()` on ASCII,
the only inputs the source hashes). -/
def strBytes (s : String) : List Nat := s.data.map Char.toNat

/-- `int(hashlib.md5(s.encode()).hexdigest()[:4], 16)`: the first four hex
digits of the digest are the first two digest bytes, i.e. the two low
bytes of the final `a` word (the digest is little-endian in `a`). -/
def md5hex4 (s : String) : Nat :=
  let st := md5bytes (strBytes s)
  st.a % 256 * 256 + st.a / 256 % 256

/-- `int(hashlib.md5(s.encode()).hexdigest()[:3], 16)`: the first three hex
digits of the digest. -/
def md5hex3 (s : String) : Nat :=
  let st := md5bytes (strBytes s)
  st.a % 256 * 16 + st.a / 256 % 256 / 16

/-! ## Config generation (`network_manager.py`, `generate_config` and helpers)

Python exceptions are modelled with `Except PyError`; Python `int(s)` on the
digit strings these claims range over is modelled by `pyInt`.
-/

/-- A Python exception value (only `ValueError` arises in the embedded code). -/
inductive PyError where
  | valueError (msg : String)
deriving Repr, DecidableEq

/-- Parse a non-empty all-digit string (the fragment of Python `int(s)`
exercised here; `int` also accepts signs and surrounding whitespace, which
never occur in the embedded call sites or the claims). -/
def pyIntDigits (s : String) : Option Nat :=
  if s ≠ "" ∧ s.data.all Char.isDigit then
    some (s.data.foldl (fun n c => n * 10 + (c.toNat - 48)) 0)
  else none

/-- Python `int(s)`: raises `ValueError` on a malformed literal. -/
def pyInt (s : String) : Except PyError Nat :=
  match pyIntDigits s with
  | some n => .ok n
  | none => .error (.valueError ("invalid literal for int with base 10: " ++ s))

/-- The `plmn_id` entry of the config dict:
`f"{mcc}{mnc:02d}" if len(mnc) == 2 else f"{mcc}{mnc}"`.
When `len(mnc) == 2` Python applies the integer format code `02d` to the
*string* `mnc`, which raises
`ValueError: Unknown format code 'd' for object of type 'str'`
(the format spec `02d` is only valid for integers); otherwise the f-string
is plain concatenation with no padding. -/
def plmnFormat (mcc mnc : String) : Except PyError String :=
  if mnc.length = 2 then
    .error (.valueError "Unknown format code d for object of type str")
  else .ok (mcc ++ mnc)

/-- `_generate_cell_id(mcc, mnc)`: base offset `int(mcc)*1000 + int(mnc)*100`
plus the first four hex digits of `md5(mcc + mnc)` reduced mod 900, plus the
floor 100, rendered back to a string. -/
def generate_cell_id (mcc mnc : String) : Except PyError String := do
  let m ← pyInt mcc
  let n ← pyInt mnc
  let base := m * 1000 + n * 100
  let hashVal := md5hex4 (mcc ++ mnc)
  return toString (base + hashVal % 900 + 100)

/-- `_generate_lac(mcc, mnc)`: base `int(mcc)*10 + int(mnc)` plus the first
three hex digits of `md5(mcc + mnc + "lac")` reduced mod 500, plus 1000. -/
def generate_lac (mcc mnc : String) : Except PyError String := do
  let m ← pyInt mcc
  let n ← pyInt mnc
  let base := m * 10 + n
  let hashVal := md5hex3 (mcc ++ mnc ++ "lac")
  return toString (base + hashVal % 500 + 1000)

/-- A band's frequency triple. -/
structure FreqConfig where
  dl_earfcn : Nat
  ul_earfcn : Nat
  center_freq : Nat
deriving Repr, DecidableEq

/-- The fixed `band_configs` table of `_get_frequency_config`. -/
def band_configs : List (String × FreqConfig) :=
  [("1", ⟨300, 18300, 2140000000⟩),
   ("3", ⟨1200, 19200, 1842500000⟩),
   ("8", ⟨3450, 21450, 942500000⟩),
   ("20", ⟨6150, 24150, 791000000⟩)]

/-- `_get_frequency_config(band)`:
`band_configs.get(band, band_configs["3"])` — table lookup defaulting to
band 3's entry. -/
def get_frequency_config (band : String) : FreqConfig :=
  match band_configs.lookup band with
  | some fc => fc
  | none => ⟨1200, 19200, 1842500000⟩

/-- The string format `f"{mnc:0>2}"`: left-pad with the character `0` to
width 2 (a *string* format spec, valid on `str`, unlike `02d`). -/
def padZero2 (s : String) : String :=
  if s.length = 0 then "00" else if s.length = 1 then "0" ++ s else s

/-- The fixed `operators` table of `_get_operator_name`. -/
def operators : List (String × String) :=
  [("45601", "Cellcard"), ("45602", "Smart Mobile"), ("45603", "qb"),
   ("45604", "qb"), ("45605", "Smart Mobile"), ("45606", "Smart Axiata"),
   ("45608", "Metfone"), ("45609", "Metfone")]

/-- The fixed `short_names` table of `_get_operator_short_name`. -/
def short_names : List (String × String) :=
  [("45601", "Cellcard"), ("45602", "Smart"), ("45603", "qb"),
   ("45604", "qb"), ("45605", "Smart"), ("45606", "Smart"),
   ("45608", "Metfone"), ("45609", "Metfone")]

/-- `_get_operator_name(mcc, mnc)`. -/
def get_operator_name (mcc mnc : String) : String :=
  let plmn := mcc ++ padZero2 mnc
  (operators.lookup plmn).getD ("Operator " ++ plmn)

/-- `_get_operator_short_name(mcc, mnc)`. -/
def get_operator_short_name (mcc mnc : String) : String :=
  let plmn := mcc ++ padZero2 mnc
  (short_names.lookup plmn).getD ("Op" ++ plmn)

/-- Python `s.lower()`, character-wise (ASCII case mapping; the call sites
only compare against `"auto"`, so the Unicode cases Python additionally
lowers never matter). -/
def pyLower (s : String) : String := String.mk (s.data.map Char.toLower)

/-- The configuration record built by `generate_config` (field per dict key;
`generated_at` is the event-loop timestamp, passed in as `now`). -/
structure NetworkConfig where
  mcc : Nat
  mnc : Nat
  plmn_id : String
  cell_id : Nat
  lac : Nat
  tac : Nat
  band : Nat
  dl_earfcn : Nat
  ul_earfcn : Nat
  center_freq : Nat
  tx_gain : Nat
  rx_gain : Nat
  bandwidth : Nat
  n_prb : Nat
  network_name : String
  short_network_name : String
  integrity_algorithm : String
  ciphering_algorithm : String
  t3410 : Nat
  t3411 : Nat
  t3402 : Nat
  s1ap_bind_addr : String
  gtpu_bind_addr : String
  mme_addr : String
  generated_at : Nat
deriving Repr, DecidableEq

/-- `generate_config(mcc, mnc, cell_id, lac, band)`.  The dict-literal
values are evaluated in source order, so an exception in an earlier entry
(e.g. the `plmn_id` f-string) pre-empts the later ones; the `try/except`
in the source logs and re-raises, so exceptions propagate to the caller. -/
def generate_config (mcc mnc cell_id lac band : String) (now : Nat) :
    Except PyError NetworkConfig := do
  let cellId ← if cell_id = "" ∨ pyLower cell_id = "auto" then
      generate_cell_id mcc mnc
    else .ok cell_id
  let lacV ← if lac = "" ∨ pyLower lac = "auto" then
      generate_lac mcc mnc
    else .ok lac
  let freq := get_frequency_config band
  let mccInt ← pyInt mcc
  let mncInt ← pyInt mnc
  let plmn ← plmnFormat mcc mnc
  let cellInt ← pyInt cellId
  let lacInt ← pyInt lacV
  let bandInt ← pyInt band
  return { mcc := mccInt, mnc := mncInt, plmn_id := plmn,
           cell_id := cellInt, lac := lacInt, tac := lacInt,
           band := bandInt,
           dl_earfcn := freq.dl_earfcn, ul_earfcn := freq.ul_earfcn,
           center_freq := freq.center_freq,
           tx_gain := 50, rx_gain := 40, bandwidth := 20, n_prb := 100,
           network_name := get_operator_name mcc mnc,
           short_network_name := get_operator_short_name mcc mnc,
           integrity_algorithm := "EIA1", ciphering_algorithm := "EEA0",
           t3410 := 15, t3411 := 10, t3402 := 12,
           s1ap_bind_addr := "127.0.1.100", gtpu_bind_addr := "127.0.1.1",
           mme_addr := "127.0.1.100",
           generated_at := now }

/-! ## Process lifecycle (`network_manager.py`, `start_network`,
`stop_network`, `_stop_process`, `_verify_network_status`)

`self` is passed explicitly as `NMState`.  The outcome of external actions
(whether each subprocess spawns, what `returncode` each handle reports at
the two points where the source inspects it, and whether the process exits
within the grace period of `asyncio.wait_for(..., timeout=5.0)`) is an
environment parameter.  Signals sent to subprocesses and waits are recorded
in an event trace.
-/

/-- A subprocess handle, together with the behaviour the environment gives
it: the `returncode` that `_verify_network_status` observes, the
`returncode` that `_stop_process` observes, and whether a `terminate()`
makes it exit within the 5-second grace period. -/
structure Proc where
  pid : Nat
  returncodeAtVerify : Option Int
  returncodeAtStop : Option Int
  exitsWithinGrace : Bool
deriving Repr, DecidableEq

/-- Externally visible actions of the stop path, tagged with the component
name (`"eNodeB"` or `"EPC"`) the source passes to `_stop_process`. -/
inductive Event where
  | term (component : String)
  | waitGrace (component : String) (secs : Nat)
  | kill (component : String)
  | waitReap (component : String)
  | warnForced (component : String)
deriving Repr, DecidableEq

/-- The component a stop event concerns. -/
def Event.component : Event → String
  | .term c => c
  | .waitGrace c _ => c
  | .kill c => c
  | .waitReap c => c
  | .warnForced c => c

/-- The grace period of `_stop_process` (`timeout=5.0`). -/
def gracePeriod : Nat := 5

/-- `_stop_process(process, name)`: if the process is still running
(`returncode is None`), send `terminate()` and wait up to `gracePeriod`;
on timeout, send `kill()`, wait unconditionally, and log a warning.
If the process has already exited, do nothing.  The body catches its own
exceptions, so the caller never fails. -/
def stop_process_events (name : String) (p : Proc) : List Event :=
  match p.returncodeAtStop with
  | some _ => []
  | none =>
    if p.exitsWithinGrace then
      [.term name, .waitGrace name gracePeriod]
    else
      [.term name, .waitGrace name gracePeriod, .kill name,
       .waitReap name, .warnForced name]

/-- The mutable fields of `NetworkManager` the lifecycle methods touch
(`current_config = {}` is modelled as `none`). -/
structure NMState where
  enb_process : Option Proc
  epc_process : Option Proc
  is_running : Bool
  current_config : Option NetworkConfig
deriving Repr, DecidableEq

/-- `stop_network()`: stop the eNodeB process (if any), clear its handle,
then stop the EPC process (if any), clear its handle, set
`is_running = False`, return `True`.  The `except` branch returning
`False` is unreachable: `_stop_process` swallows its own exceptions and
the remaining statements are attribute assignments. -/
def stop_network (s : NMState) : Bool × NMState × List Event :=
  let enbEvts := match s.enb_process with
    | some p => stop_process_events "eNodeB" p
    | none => []
  let epcEvts := match s.epc_process with
    | some p => stop_process_events "EPC" p
    | none => []
  (true,
   { s with enb_process := none, epc_process := none, is_running := false },
   enbEvts ++ epcEvts)

/-- `_verify_network_status()`: fails iff a tracked process has a
non-`None` `returncode`; the log scan (`_check_log_for_errors`) only logs
warnings and never changes the result. -/
def verify_network_status (s : NMState) : Bool :=
  (match s.epc_process with
   | some p => p.returncodeAtVerify.isNone
   | none => true) &&
  (match s.enb_process with
   | some p => p.returncodeAtVerify.isNone
   | none => true)

/-- The environment of one `start_network` run: whether `_save_config`
raises, and the spawn outcome of each component (`none` =
`create_subprocess_exec` raised, so the handle field is never assigned). -/
structure StartEnv where
  saveRaises : Bool
  epcSpawn : Option Proc
  enbSpawn : Option Proc
deriving Repr, DecidableEq

/-- `start_network(config)`: reject if already running; store and save the
config if one was passed (`if config:`); start EPC, settle, start eNodeB,
settle, verify; on success set `is_running = True`; on any exception or
failed verification run `stop_network()` (rollback) and return `False`. -/
def start_network (s : NMState) (config : Option NetworkConfig)
    (env : StartEnv) : Bool × NMState × List Event :=
  if s.is_running then (false, s, [])
  else
    let s1 := match config with
      | some c => { s with current_config := some c }
      | none => s
    if config.isSome && env.saveRaises then
      let r := stop_network s1
      (false, r.2.1, r.2.2)
    else
      match env.epcSpawn with
      | none =>
        let r := stop_network s1
        (false, r.2.1, r.2.2)
      | some pe =>
        let s2 := { s1 with epc_process := some pe }
        match env.enbSpawn with
        | none =>
          let r := stop_network s2
          (false, r.2.1, r.2.2)
        | some pn =>
          let s3 := { s2 with enb_process := some pn }
          if verify_network_status s3 then
            (true, { s3 with is_running := true }, [])
          else
            let r := stop_network s3
            (false, r.2.1, r.2.2)

/-! ## SDR controller (`sdr_controller.py`, `connect`, `test` and helpers)

External tool invocations are abstracted by environment records carrying
their exit codes / relevant output (`none` = the invocation raised an
OS-level exception, e.g. the executable is missing).
-/

/-- The acceptable exit codes `[0, 124]` (success, or the exit code of the
`timeout` wrapper when the bounded test window elapsed). -/
def acceptable_codes : List Int := [0, 124]

/-- The mutable fields of `SDRController` that `connect` touches. -/
structure SDRSession where
  device_args : String
  device_serial : Option String
  is_connected : Bool
deriving Repr, DecidableEq

/-- The environment of one `connect` run: the probe's exit code (`none` =
exception), the `Serial:` field its regex extraction finds in the probe
output (the free-text parse of `_parse_probe_output` is abstracted to its
result), and the smoke test's exit code. -/
structure ConnectEnv where
  probe : Option Int
  probeSerial : Option String
  smoke : Option Int
deriving Repr, DecidableEq

/-- `_test_basic_functionality()`: exit code of the bounded
`rx_samples_to_file` capture must be in `[0, 124]`; an exception yields
`False`. -/
def test_basic_functionality (smoke : Option Int) : Bool :=
  match smoke with
  | some c => acceptable_codes.contains c
  | none => false

/-- `connect(device_args)`: optionally replace `device_args` (Python
truthiness: `None` and `""` leave it unchanged); probe the device
(`uhd_usrp_probe`), failing unless the exit code is 0; record the parsed
serial (default `"Unknown"`); run the smoke test; only if it passes set
`is_connected = True` and return `True`. -/
def connect (s : SDRSession) (deviceArgs : Option String)
    (env : ConnectEnv) : Bool × SDRSession :=
  let s0 := match deviceArgs with
    | some d => if d = "" then s else { s with device_args := d }
    | none => s
  match env.probe with
  | none => (false, s0)
  | some rc =>
    if rc ≠ 0 then (false, s0)
    else
      let s1 := { s0 with device_serial := some (env.probeSerial.getD "Unknown") }
      if test_basic_functionality env.smoke then
        (true, { s1 with is_connected := true })
      else (false, s1)

/-- The fixed gain settings `test_gains = [0, 25, 50, 75]` of
`_test_gain_control`. -/
def test_gains : List Nat := [0, 25, 50, 75]

/-- The environment of one `test()` run: the outcome of the hardware scan
(`_test_hardware_detection`, its device-list parse abstracted to its
boolean result), the clock probe's stdout (`none` = exception, which the
source turns into a pass), the TX / RX invocation exit codes (`none` =
exception, a fail), and the capture exit code at each gain setting. -/
structure TestEnv where
  hwDetect : Bool
  clockOut : Option String
  txCode : Option Int
  rxCode : Option Int
  gainCode : Nat → Int

/-- `_test_clock_stability()`: passes iff `"Clock test passed"` occurs in
the probe's stdout; an exception is treated as a pass. -/
def test_clock_stability (clockOut : Option String) : Bool :=
  match clockOut with
  | some out => decide (2 ≤ (out.splitOn "Clock test passed").length)
  | none => true

/-- `_test_tx_path()`: exit code of `tx_waveforms` in `[0, 124]`;
exception yields `False`. -/
def test_tx_path (code : Option Int) : Bool :=
  match code with
  | some c => acceptable_codes.contains c
  | none => false

/-- `_test_rx_path()`: exit code of `rx_samples_to_file` in `[0, 124]`;
exception yields `False`. -/
def test_rx_path (code : Option Int) : Bool :=
  match code with
  | some c => acceptable_codes.contains c
  | none => false

/-- `_test_frequency_accuracy()`: the source simply returns `True`
(a documented placeholder). -/
def test_frequency_accuracy : Bool := true

/-- `_test_gain_control()`: the loop over `test_gains` returns `False` as
soon as an iteration's exit code is outside `[0, 124]` (from the source).
Modelled from the spec: the repository snapshot of `sdr_controller.py`
ends mid-function — everything after the loop's cleanup block, including
the final return, is missing — and §4.6 of the spec says the gain-control
test "fails overall if any iteration's exit code is unacceptable", so the
all-iterations-acceptable path returns `True`. -/
def test_gain_control (gainCode : Nat → Int) : Bool :=
  test_gains.all (fun g => acceptable_codes.contains (gainCode g))

/-- An external tool invocation made by `test()`. -/
inductive Invocation where
  | findDevices
  | clockProbe
  | txWave
  | rxCapture
  | gainCapture (gain : Nat)
deriving Repr, DecidableEq

/-- The gain settings actually attempted by `_test_gain_control`'s loop:
every gain up to and including the first unacceptable one. -/
def gainAttemptsGo (gainCode : Nat → Int) : List Nat → List Nat
  | [] => []
  | g :: rest =>
    g :: (if acceptable_codes.contains (gainCode g) then
            gainAttemptsGo gainCode rest
          else [])

/-- `test()`: record the `Connection` entry; if not connected, return just
that entry having made no external invocation; otherwise run the six named
tests in order, each independently, and return all their outcomes. -/
def sdr_test (is_connected : Bool) (env : TestEnv) :
    List (String × Bool) × List Invocation :=
  let results := [("Connection", is_connected)]
  if !is_connected then (results, [])
  else
    (results ++
      [("Hardware Detection", env.hwDetect),
       ("Clock Stability", test_clock_stability env.clockOut),
       ("TX Path", test_tx_path env.txCode),
       ("RX Path", test_rx_path env.rxCode),
       ("Frequency Accuracy", test_frequency_accuracy),
       ("Gain Control", test_gain_control env.gainCode)],
     [.findDevices, .clockProbe, .txWave, .rxCapture] ++
       (gainAttemptsGo env.gainCode test_gains).map .gainCapture)

/-! ## Helper lemmas -/

/-- Every event `_stop_process` emits concerns the component it was asked
to stop. -/
theorem stop_process_events_component (name : String) (p : Proc) :
    ∀ e ∈ stop_process_events name p, e.component = name := by
  intro e he
  unfold stop_process_events at he
  cases h : p.returncodeAtStop with
  | some _ => simp [h] at he
  | none =>
    by_cases hg : p.exitsWithinGrace <;>
      simp [h, hg] at he <;>
      rcases he with rfl | rfl | rfl | rfl | rfl <;>
      rfl

/-! ## Claims -/

deriving instance DecidableEq for Except

set_option maxRecDepth 10000

/-- C1: the claim says `plmn_id` always equals `mcc` concatenated with the
zero-padded 2-digit `mnc`, and in particular that
`generate_config("456", "06", "auto", "auto", "3")` returns a config with
`plmn_id = "45606"`.  The code instead raises: the f-string
`f"{mcc}{mnc:02d}"` applies the integer format code `02d` to the *string*
`mnc`, a `ValueError`, whenever `len(mnc) == 2`.  This theorem evaluates
the embedded `generate_config` at the claim's own input and shows the call
errors instead of returning a config. -/
theorem plmn_id_format_bug :
    generate_config "456" "06" "auto" "auto" "3" 0 =
      .error (.valueError "Unknown format code d for object of type str") := by
  decide

/-- C9: `_get_frequency_config` returns band 3's triple
`(1200, 19200, 1842500000)` for every band string outside the fixed table
`{"1", "3", "8", "20"}`, and the table's own entry for each known band. -/
theorem frequency_band_fallback :
    (∀ band : String, band ∉ ["1", "3", "8", "20"] →
      get_frequency_config band = ⟨1200, 19200, 1842500000⟩) ∧
    get_frequency_config "1" = ⟨300, 18300, 2140000000⟩ ∧
    get_frequency_config "3" = ⟨1200, 19200, 1842500000⟩ ∧
    get_frequency_config "8" = ⟨3450, 21450, 942500000⟩ ∧
    get_frequency_config "20" = ⟨6150, 24150, 791000000⟩ := by
  refine ⟨?_, rfl, rfl, rfl, rfl⟩
  intro band h
  simp only [List.mem_cons, List.mem_singleton, not_or] at h
  obtain ⟨h1, h2, h3, h4, -⟩ := h
  have e1 : (band == "1") = false := beq_eq_false_iff_ne.mpr h1
  have e2 : (band == "3") = false := beq_eq_false_iff_ne.mpr h2
  have e3 : (band == "8") = false := beq_eq_false_iff_ne.mpr h3
  have e4 : (band == "20") = false := beq_eq_false_iff_ne.mpr h4
  simp [get_frequency_config, band_configs, List.lookup, e1, e2, e3, e4]

/-- C9 witness: the unknown band `"99"` falls back to band 3's triple. -/
theorem frequency_band_fallback_witness :
    ("99" : String) ∉ ["1", "3", "8", "20"] ∧
    get_frequency_config "99" = ⟨1200, 19200, 1842500000⟩ :=
  ⟨by decide, frequency_band_fallback.1 "99" (by decide)⟩

/-- C10: when the session is not connected, `test()` returns exactly the
single entry `"Connection" ↦ false`, runs none of the six named tests and
makes no external invocation. -/
theorem sdr_test_disconnected (env : TestEnv) :
    sdr_test false env = ([("Connection", false)], []) := rfl

/-- C3: `start_network` called while `is_running` is true returns failure
and leaves the whole orchestrator state (`is_running`, `current_config`
and both process handles) unchanged, emitting no events. -/
theorem start_network_already_running (s : NMState)
    (config : Option NetworkConfig) (env : StartEnv)
    (h : s.is_running = true) :
    start_network s config env = (false, s, []) := by
  simp [start_network, h]

/-- C3 witness: a concrete running state is left untouched. -/
theorem start_network_already_running_witness :
    (⟨none, none, true, none⟩ : NMState).is_running = true ∧
    start_network ⟨none, none, true, none⟩ none ⟨false, none, none⟩ =
      (false, ⟨none, none, true, none⟩, []) :=
  ⟨rfl, start_network_already_running _ _ _ rfl⟩

/-- C4: `stop_network` always succeeds: every eNodeB stop event precedes
every EPC stop event (reverse of startup order), both handles are cleared,
`is_running` ends false unconditionally, and a call with no tracked
processes is a no-op (empty trace) returning success. -/
theorem stop_network_reverse_order (s : NMState) :
    (stop_network s).1 = true ∧
    (stop_network s).2.1.is_running = false ∧
    (stop_network s).2.1.enb_process = none ∧
    (stop_network s).2.1.epc_process = none ∧
    (∃ tr₁ tr₂, (stop_network s).2.2 = tr₁ ++ tr₂ ∧
      (∀ e ∈ tr₁, e.component = "eNodeB") ∧
      (∀ e ∈ tr₂, e.component = "EPC")) ∧
    (s.enb_process = none → s.epc_process = none →
      (stop_network s).2.2 = []) := by
  refine ⟨rfl, rfl, rfl, rfl, ?_, ?_⟩
  · refine ⟨(match s.enb_process with
        | some p => stop_process_events "eNodeB" p
        | none => []),
      (match s.epc_process with
        | some p => stop_process_events "EPC" p
        | none => []), rfl, ?_, ?_⟩
    · cases s.enb_process with
      | none => simp
      | some p => exact stop_process_events_component "eNodeB" p
    · cases s.epc_process with
      | none => simp
      | some p => exact stop_process_events_component "EPC" p
  · intro h1 h2
    simp [stop_network, h1, h2]

/-- C4 witness: stopping with no tracked processes is a no-op success. -/
theorem stop_network_reverse_order_witness :
    (⟨none, none, true, none⟩ : NMState).enb_process = none ∧
    (stop_network ⟨none, none, true, none⟩).1 = true ∧
    (stop_network ⟨none, none, true, none⟩).2.2 = [] ∧
    (stop_network ⟨none, none, true, none⟩).2.1.is_running = false :=
  ⟨rfl, (stop_network_reverse_order _).1,
   (stop_network_reverse_order _).2.2.2.2.2 rfl rfl,
   (stop_network_reverse_order _).2.1⟩

/-- C5: `_stop_process` is two-phase.  On a still-running process the
graceful request is the first event; a forced kill happens exactly when
the process does not exit within the grace period; whenever a kill occurs
the trace is graceful-request, 5-unit grace wait, kill, unconditional
reap wait, then a logged warning (so the kill is never before the graceful
request and grace period, and the forced path is logged rather than
failing); and a process exiting within the grace period sees only the
graceful request and the grace wait. -/
theorem stop_process_two_phase (name : String) (p : Proc) :
    (p.returncodeAtStop = none →
      (stop_process_events name p).head? = some (.term name)) ∧
    (Event.kill name ∈ stop_process_events name p ↔
      p.returncodeAtStop = none ∧ p.exitsWithinGrace = false) ∧
    (Event.kill name ∈ stop_process_events name p →
      stop_process_events name p =
        [.term name, .waitGrace name gracePeriod, .kill name,
         .waitReap name, .warnForced name]) ∧
    (p.returncodeAtStop = none → p.exitsWithinGrace = true →
      stop_process_events name p =
        [.term name, .waitGrace name gracePeriod]) := by
  cases h : p.returncodeAtStop with
  | some rc => simp [stop_process_events, h]
  | none =>
    by_cases hg : p.exitsWithinGrace <;>
      simp [stop_process_events, h, hg]

/-- C5 witness: a process that ignores the graceful request within the
grace period is force-killed, with the graceful request sent first. -/
theorem stop_process_two_phase_witness :
    (⟨1, none, none, false⟩ : Proc).returncodeAtStop = none ∧
    Event.kill "EPC" ∈ stop_process_events "EPC" ⟨1, none, none, false⟩ ∧
    (stop_process_events "EPC" ⟨1, none, none, false⟩).head? =
      some (.term "EPC") :=
  ⟨rfl, (stop_process_two_phase "EPC" _).2.1.mpr ⟨rfl, rfl⟩,
   (stop_process_two_phase "EPC" _).1 rfl⟩

/-- C2: if during `start_network` the eNodeB spawn fails after the EPC
spawned, or health verification fails after both spawned, the full stop
sequence runs before the call returns: the result is failure,
`is_running` is false (never a half-started state exposed as running),
both handles are cleared, the trace ends with the EPC stop sequence, and
a still-running EPC receives the graceful termination request. -/
theorem start_network_rolls_back (s : NMState)
    (config : Option NetworkConfig) (env : StartEnv) (pe : Proc)
    (hrun : s.is_running = false)
    (hsave : env.saveRaises = false)
    (hepc : env.epcSpawn = some pe)
    (hfail : env.enbSpawn = none ∨
      ∃ pn, env.enbSpawn = some pn ∧
        (pe.returncodeAtVerify ≠ none ∨ pn.returncodeAtVerify ≠ none)) :
    (start_network s config env).1 = false ∧
    (start_network s config env).2.1.is_running = false ∧
    (start_network s config env).2.1.epc_process = none ∧
    (start_network s config env).2.1.enb_process = none ∧
    (∃ pre, (start_network s config env).2.2 =
      pre ++ stop_process_events "EPC" pe) ∧
    (pe.returncodeAtStop = none →
      Event.term "EPC" ∈ (start_network s config env).2.2) := by
  have hterm : pe.returncodeAtStop = none →
      Event.term "EPC" ∈ stop_process_events "EPC" pe := by
    intro h
    cases hg : pe.exitsWithinGrace <;> simp [stop_process_events, h, hg]
  rcases hfail with henb | ⟨pn, henb, hv⟩
  · have h1 : (start_network s config env).1 = false := by
      cases config <;> simp [start_network, hrun, hsave, hepc, henb]
    have h2 : (start_network s config env).2.1.is_running = false := by
      cases config <;> simp [start_network, stop_network, hrun, hsave, hepc, henb]
    have h3 : (start_network s config env).2.1.epc_process = none := by
      cases config <;> simp [start_network, stop_network, hrun, hsave, hepc, henb]
    have h4 : (start_network s config env).2.1.enb_process = none := by
      cases config <;> simp [start_network, stop_network, hrun, hsave, hepc, henb]
    have htr : (start_network s config env).2.2 =
        (match s.enb_process with
          | some p => stop_process_events "eNodeB" p
          | none => []) ++ stop_process_events "EPC" pe := by
      cases config <;> simp [start_network, stop_network, hrun, hsave, hepc, henb]
    exact ⟨h1, h2, h3, h4, ⟨_, htr⟩,
      fun h => htr ▸ List.mem_append_right _ (hterm h)⟩
  · have hvb : (pe.returncodeAtVerify.isNone &&
        pn.returncodeAtVerify.isNone) = false := by
      rcases hv with hv | hv
      · cases hx : pe.returncodeAtVerify with
        | none => exact absurd hx hv
        | some v => simp [hx]
      · cases hx : pn.returncodeAtVerify with
        | none => exact absurd hx hv
        | some v => simp [hx]
    have h1 : (start_network s config env).1 = false := by
      cases config <;>
        simp [start_network, verify_network_status, hrun, hsave, hepc,
          henb, hvb]
    have h2 : (start_network s config env).2.1.is_running = false := by
      cases config <;>
        simp [start_network, stop_network, verify_network_status, hrun,
          hsave, hepc, henb, hvb]
    have h3 : (start_network s config env).2.1.epc_process = none := by
      cases config <;>
        simp [start_network, stop_network, verify_network_status, hrun,
          hsave, hepc, henb, hvb]
    have h4 : (start_network s config env).2.1.enb_process = none := by
      cases config <;>
        simp [start_network, stop_network, verify_network_status, hrun,
          hsave, hepc, henb, hvb]
    have htr : (start_network s config env).2.2 =
        stop_process_events "eNodeB" pn ++ stop_process_events "EPC" pe := by
      cases config <;>
        simp [start_network, stop_network, verify_network_status, hrun,
          hsave, hepc, henb, hvb]
    exact ⟨h1, h2, h3, h4, ⟨_, htr⟩,
      fun h => htr ▸ List.mem_append_right _ (hterm h)⟩

/-- C2 witness: an eNodeB spawn failure after a successful EPC spawn ends
stopped with the EPC handle cleared and the graceful request sent. -/
theorem start_network_rolls_back_witness :
    (start_network ⟨none, none, false, none⟩ none
      ⟨false, some ⟨7, none, none, true⟩, none⟩).1 = false ∧
    (start_network ⟨none, none, false, none⟩ none
      ⟨false, some ⟨7, none, none, true⟩, none⟩).2.1.is_running = false ∧
    (start_network ⟨none, none, false, none⟩ none
      ⟨false, some ⟨7, none, none, true⟩, none⟩).2.1.epc_process = none ∧
    Event.term "EPC" ∈ (start_network ⟨none, none, false, none⟩ none
      ⟨false, some ⟨7, none, none, true⟩, none⟩).2.2 :=
  have h := start_network_rolls_back ⟨none, none, false, none⟩ none
    ⟨false, some ⟨7, none, none, true⟩, none⟩ ⟨7, none, none, true⟩
    rfl rfl rfl (Or.inl rfl)
  ⟨h.1, h.2.1, h.2.2.1, h.2.2.2.2.2 rfl⟩

/-- C7: `connect` returns success — and then the session records
`is_connected` — exactly when the device probe exits with code 0 and the
smoke test's exit code is in the acceptable set `{0, 124}`; in every other
case it returns failure. -/
theorem connect_success_iff (s : SDRSession) (deviceArgs : Option String)
    (env : ConnectEnv) :
    ((connect s deviceArgs env).1 = true ↔
      env.probe = some 0 ∧ ∃ c, env.smoke = some c ∧ (c = 0 ∨ c = 124)) ∧
    (env.probe = some 0 ∧ (∃ c, env.smoke = some c ∧ (c = 0 ∨ c = 124)) →
      (connect s deviceArgs env).2.is_connected = true) := by
  cases hp : env.probe with
  | none => simp [connect, hp]
  | some rc =>
    cases hs : env.smoke with
    | none =>
      by_cases hrc : rc = 0 <;>
        simp [connect, test_basic_functionality, hp, hs, hrc]
    | some c =>
      by_cases hrc : rc = 0
      · subst hrc
        by_cases hc : c = 0 ∨ c = 124
        · simp [connect, test_basic_functionality, acceptable_codes,
            hp, hs, hc]
        · have hc0 : ¬c = 0 := fun h => hc (Or.inl h)
          have hc124 : ¬c = 124 := fun h => hc (Or.inr h)
          simp [connect, test_basic_functionality, acceptable_codes,
            hp, hs, hc0, hc124]
      · simp [connect, test_basic_functionality, acceptable_codes,
          hp, hs, hrc]

/-- C7 witness: a probe exiting 0 followed by a smoke test exiting 124
(the benign timeout code) connects the session. -/
theorem connect_success_iff_witness :
    (connect ⟨"type=b200", none, false⟩ none
      ⟨some 0, some "F12345", some 124⟩).1 = true ∧
    (connect ⟨"type=b200", none, false⟩ none
      ⟨some 0, some "F12345", some 124⟩).2.is_connected = true :=
  ⟨(connect_success_iff _ _ _).1.mpr ⟨rfl, 124, rfl, Or.inr rfl⟩,
   (connect_success_iff _ _ _).2 ⟨rfl, 124, rfl, Or.inr rfl⟩⟩

/-- C6: on a connected session `test()` returns an outcome for each of the
six named tests after the `Connection` entry, whatever the individual
results are (no early abort), and the gain-control outcome is `false`
exactly when some gain in `{0, 25, 50, 75}` yields an exit code outside
the acceptable set `{0, 124}`. -/
theorem sdr_test_connected_outcomes (env : TestEnv) :
    ((sdr_test true env).1.map Prod.fst =
      ["Connection", "Hardware Detection", "Clock Stability", "TX Path",
       "RX Path", "Frequency Accuracy", "Gain Control"]) ∧
    ((sdr_test true env).1.lookup "Gain Control" = some false ↔
      ∃ g ∈ test_gains, env.gainCode g ≠ 0 ∧ env.gainCode g ≠ 124) := by
  constructor
  · rfl
  · have hl : (sdr_test true env).1.lookup "Gain Control" =
        some (test_gain_control env.gainCode) := rfl
    rw [hl, Option.some_inj]
    simp only [test_gain_control, test_gains, acceptable_codes]
    constructor
    · intro h
      by_contra hno
      push_neg at hno
      have : ∀ g ∈ [0, 25, 50, 75],
          ([0, 124] : List Int).contains (env.gainCode g) = true := by
        intro g hg
        by_cases h0 : env.gainCode g = 0
        · simp [List.contains, h0]
        · simp [List.contains, hno g hg h0]
      rw [List.all_eq_true.mpr this] at h
      cases h
    · intro ⟨g, hg, h0, h124⟩ 
      rcases Bool.eq_false_or_eq_true
          (([0, 25, 50, 75] : List Nat).all
            (fun g => ([0, 124] : List Int).contains (env.gainCode g))) with
        ht | hf
      · exfalso
        have := List.all_eq_true.mp ht g hg
        simp [List.contains] at this
        rcases this with h | h
        · exact h0 h
        · exact h124 h
      · exact hf

/-- C8: with `cell_id="auto"` and `lac="auto"`, the generated `cell_id`
and `lac` do not depend on when `generate_config` is called (two calls at
different timestamps agree), because the auto derivations are pure
functions of `(mcc, mnc)`: the cell id is the base offset
`mcc*1000 + mnc*100` plus an MD5-derived hash truncated to `% 900` plus
the fixed floor 100, and the lac is derived likewise with a different
salt and floor. -/
theorem auto_ids_deterministic :
    (∀ mcc mnc band : String, ∀ now₁ now₂ : Nat,
      (generate_config mcc mnc "auto" "auto" band now₁).map
          (fun c => (c.cell_id, c.lac)) =
        (generate_config mcc mnc "auto" "auto" band now₂).map
          (fun c => (c.cell_id, c.lac))) ∧
    (∀ mcc mnc : String, ∀ m n : Nat,
      pyIntDigits mcc = some m → pyIntDigits mnc = some n →
      generate_cell_id mcc mnc =
          .ok (toString (m * 1000 + n * 100 +
            md5hex4 (mcc ++ mnc) % 900 + 100)) ∧
        generate_lac mcc mnc =
          .ok (toString (m * 10 + n +
            md5hex3 (mcc ++ mnc ++ "lac") % 500 + 1000))) := by
  constructor
  · intro mcc mnc band now₁ now₂
    simp only [generate_config, reduceIte]
    cases generate_cell_id mcc mnc with
    | error e => rfl
    | ok cellId =>
      dsimp only [bind, Except.bind]
      cases generate_lac mcc mnc with
      | error e => rfl
      | ok lacV =>
        dsimp only
        cases pyInt mcc with
        | error e => rfl
        | ok m =>
          dsimp only
          cases pyInt mnc with
          | error e => rfl
          | ok n =>
            dsimp only
            cases plmnFormat mcc mnc with
            | error e => rfl
            | ok plmn =>
              dsimp only
              cases pyInt cellId with
              | error e => rfl
              | ok ci =>
                dsimp only
                cases pyInt lacV with
                | error e => rfl
                | ok li =>
                  dsimp only
                  cases pyInt band with
                  | error e => rfl
                  | ok bi => rfl
  · intro mcc mnc m n h1 h2
    constructor
    · simp [generate_cell_id, pyInt, h1, h2, bind, Except.bind, pure,
        Except.pure]
    · simp [generate_lac, pyInt, h1, h2, bind, Except.bind, pure,
        Except.pure]

/-- C8 witness: two timestamped calls at `("456", "1")` agree on
`cell_id` and `lac`, and the cell id has the stated base + hash + floor
shape. -/
theorem auto_ids_deterministic_witness :
    ((generate_config "456" "1" "auto" "auto" "3" 0).map
        (fun c => (c.cell_id, c.lac)) =
      (generate_config "456" "1" "auto" "auto" "3" 7).map
        (fun c => (c.cell_id, c.lac))) ∧
    generate_cell_id "456" "1" =
      .ok (toString (456 * 1000 + 1 * 100 +
        md5hex4 ("456" ++ "1") % 900 + 100)) :=
  ⟨auto_ids_deterministic.1 "456" "1" "3" 0 7,
   (auto_ids_deterministic.2 "456" "1" 456 1 (by decide) (by decide)).1⟩
